import Mathlib

/-!
# CEP mask and address auto-fill (`assets/js/dados.js`)

A shallow embedding of the script bound to the postal-code field:

* `normalizeCEP`, `formatCEP`: the digit mask;
* `caretPos`, `inputHandler`: the `input` listener;
* `buscarEnderecoPorCEP`, `blurHandler`: the lookup and the `blur` listener.

Strings are JavaScript strings, that is, sequences of UTF-16 code units, so that
`.length` and `.slice` count what the script counts. The network and the DOM are
explicit: the handlers take the answer of `fetch` as an argument and return the
list of requested URLs together with the new contents of the form controls.
-/

namespace Dados

/-! ## Strings -/

/-- A JavaScript string, as its sequence of UTF-16 code units. A code unit is a
natural number below `2 ^ 16`; no definition below depends on the bound. -/
abbrev JSString := List Nat

/-- UTF-16 encoding of one Unicode scalar value. -/
def utf16Char (c : Char) : List Nat :=
  if c.toNat < 65536 then [c.toNat]
  else [55296 + (c.toNat - 65536) / 1024, 56320 + (c.toNat - 65536) % 1024]

/-- UTF-16 encoding of a list of characters. -/
def utf16List : List Char → JSString
  | [] => []
  | c :: cs => utf16Char c ++ utf16List cs

/-- The JavaScript string written by a literal. -/
def utf16 (s : String) : JSString := utf16List s.toList

/-- The regular expression `\d` (the complement of `\D`): without the `u` and `i`
flags it matches exactly the code units of `0` to `9`. -/
def isDigit (c : Nat) : Bool := decide (48 ≤ c ∧ c ≤ 57)

/-- The call `s.replace(/\D/g, '')`: every code unit matched by `\D` is removed. -/
def replaceNonDigits (s : JSString) : JSString := s.filter isDigit

/-- The call `s.slice(b, e)` for indices `0 ≤ b` and `0 ≤ e`. -/
def slice (s : JSString) (b e : Nat) : JSString := (s.take e).drop b

/-- The call `s.slice(b)` for an index `0 ≤ b`. -/
def sliceFrom (s : JSString) (b : Nat) : JSString := s.drop b

/-- The expression `value || ''` for a value that is a string, `null` or
`undefined` (`none`): the empty string is the only falsy string. -/
def orEmpty : Option JSString → JSString
  | none => []
  | some s => if s.length = 0 then [] else s

/-! ## The mask -/

/-- Source: `function normalizeCEP(value)`,
`return (value || '').replace(/\D/g, '').slice(0, 8)`. -/
def normalizeCEP (value : Option JSString) : JSString :=
  slice (replaceNonDigits (orEmpty value)) 0 8

/-- Source: `function formatCEP(value)`. The template literal concatenates the
first five digits, a hyphen and the remaining digits. -/
def formatCEP (value : Option JSString) : JSString :=
  let digits := normalizeCEP value
  if digits.length ≤ 5 then digits
  else slice digits 0 5 ++ utf16 "-" ++ sliceFrom digits 5

/-- The digit run of the specification: the characters `0` to `9` of `s`, in
order, cut after the eighth. Written from the words of the specification, to be
compared with `formatCEP`. -/
def specDigitRun (s : JSString) : JSString :=
  (s.filter (fun c => decide (c ∈ utf16 "0123456789"))).take 8

/-! ## The `input` listener -/

/-- The expression
`Math.min(formatted.length, start + (formatted.length - prev.length))`
of the `input` listener. The lengths are small integers, on which the
arithmetic of JavaScript numbers is exact. -/
def caretPos (start : Int) (formatted prev : JSString) : Int :=
  min (formatted.length : Int) (start + ((formatted.length : Int) - (prev.length : Int)))

/-- What the `input` listener writes: the new `cepInput.value`, and the argument
`pos` of the call `cepInput.setSelectionRange(pos, pos)` when the call is made. -/
structure InputEffect where
  value : JSString
  selection : Option Int
deriving DecidableEq

/-- Source: the listener `cepInput.addEventListener('input', ...)`. The argument
`active` is `document.activeElement === cepInput`, `start` is
`cepInput.selectionStart` and `prev` is `cepInput.value`, all read when the
event is dispatched. -/
def inputHandler (active : Bool) (start : Int) (prev : JSString) : InputEffect :=
  let formatted := formatCEP (some prev)
  { value := formatted
    selection := if active then some (caretPos start formatted prev) else none }

/-- One keystroke at the end of the focused field: the browser appends the typed
code unit to the displayed value, leaves the caret after it and dispatches
`input`; the result is the value the listener leaves in the field. -/
def keystroke (shown : JSString) (c : Nat) : JSString :=
  (inputHandler true ((shown ++ [c]).length : Int) (shown ++ [c])).value

/-- The displayed value after typing `keys` into an empty field, one code unit
per keystroke. -/
def typed (keys : JSString) : JSString := keys.foldl keystroke []

/-! ## The lookup -/

/-- Result of an awaited call: a value, or an exception (a rejected promise). -/
inductive Outcome (α : Type) where
  | returned (v : α)
  | thrown
deriving DecidableEq

/-- The JSON object of the lookup service, with the fields the script reads:
`{ erro?: boolean, logradouro?: string, bairro?: string, localidade?: string,
uf?: string, complemento?: string }`. A field that is missing or `null` is
`none`. -/
structure Endereco where
  erro : Option Bool
  logradouro : Option JSString
  bairro : Option JSString
  localidade : Option JSString
  uf : Option JSString
  complemento : Option JSString
deriving DecidableEq

/-- The part of a `fetch` response the script reads: `resp.ok` and the result of
`await resp.json()`, which throws on a body that is not JSON and otherwise gives
the parsed value; `none` is a falsy value such as `null`. -/
structure Response where
  ok : Bool
  json : Outcome (Option Endereco)
deriving DecidableEq

/-- The network: what `await fetch(url)` gives for each URL. -/
abbrev Fetch := JSString → Outcome Response

/-- Truthiness of a value that is a string, `null` or `undefined`. -/
def truthyStr : Option JSString → Bool
  | none => false
  | some s => decide (s.length ≠ 0)

/-- Truthiness of a value that is a boolean, `null` or `undefined`. -/
def truthyBool : Option Bool → Bool
  | none => false
  | some b => b

/-- The template literal of the request URL. -/
def lookupURL (cepDigits : JSString) : JSString :=
  utf16 "https://viacep.com.br/ws/" ++ cepDigits ++ utf16 "/json/"

/-- The `try` block of `buscarEnderecoPorCEP`: an exception of `fetch` or of
`resp.json()` leaves the block; `data && !data.erro` holds for a truthy body
whose `erro` is falsy. -/
def lookupBody (fetch : Fetch) (url : JSString) : Outcome (Option Endereco) :=
  match fetch url with
  | .thrown => .thrown
  | .returned resp =>
    if !resp.ok then .returned none
    else
      match resp.json with
      | .thrown => .thrown
      | .returned none => .returned none
      | .returned (some data) =>
        if !truthyBool data.erro then .returned (some data) else .returned none

/-- Source: `async function buscarEnderecoPorCEP(cepDigits)`. The first component
lists the URLs passed to `fetch`; the second is the value the function resolves
to (`none` is `null`), or `thrown` if an exception escaped it. The `catch`
clause turns every exception of the `try` block into `null`. -/
def buscarEnderecoPorCEP (fetch : Fetch) (cepDigits : JSString) :
    List JSString × Outcome (Option Endereco) :=
  let url := lookupURL cepDigits
  ([url],
    match lookupBody fetch url with
    | .thrown => .returned none
    | .returned data => .returned data)

/-- The form controls the script looks up by identifier. `cep` is the value of
the postal-code field, which exists whenever a listener is bound; each other
field is `none` when `getElementById` found no element and otherwise the
`value` of the control. -/
structure Form where
  cep : JSString
  logradouro : Option JSString
  bairro : Option JSString
  cidade : Option JSString
  estado : Option JSString
  complemento : Option JSString
deriving DecidableEq

/-- The statement `if (input) input.value = v`. -/
def assignIfPresent (input : Option JSString) (v : JSString) : Option JSString :=
  match input with
  | none => none
  | some _ => some v

/-- The statement
`if (complementoInput && endereco.complemento) complementoInput.value = endereco.complemento`. -/
def assignComplemento (input : Option JSString) (v : Option JSString) : Option JSString :=
  match input with
  | none => none
  | some old => if truthyStr v then some (v.getD []) else some old

/-- Source: the listener `cepInput.addEventListener('blur', async ...)`, run on
the form as it is when the field loses focus, with no other script touching the
form while the lookup is awaited. The first component lists the URLs requested;
the second is the form when the listener finishes. -/
def blurHandler (fetch : Fetch) (form : Form) : List JSString × Outcome Form :=
  let digits := normalizeCEP (some form.cep)
  if digits.length ≠ 8 then ([], .returned form)
  else
    match buscarEnderecoPorCEP fetch digits with
    | (requests, .thrown) => (requests, .thrown)
    | (requests, .returned none) => (requests, .returned form)
    | (requests, .returned (some endereco)) =>
      (requests, .returned
        { cep := form.cep
          logradouro := assignIfPresent form.logradouro (orEmpty endereco.logradouro)
          bairro := assignIfPresent form.bairro (orEmpty endereco.bairro)
          cidade := assignIfPresent form.cidade (orEmpty endereco.localidade)
          estado := assignIfPresent form.estado (orEmpty endereco.uf)
          complemento := assignComplemento form.complemento endereco.complemento })

/-! ## Sample data -/

/-- The record `{logradouro: "Praça da Sé", bairro: "Sé", localidade: "São Paulo",
uf: "SP"}`. -/
def enderecoSe : Endereco :=
  { erro := none
    logradouro := some (utf16 "Praça da Sé")
    bairro := some (utf16 "Sé")
    localidade := some (utf16 "São Paulo")
    uf := some (utf16 "SP")
    complemento := none }

/-- A network on which the lookup of `01001000` succeeds with `enderecoSe` and
every other request fails. -/
def fetchSe : Fetch := fun url =>
  if url = utf16 "https://viacep.com.br/ws/01001000/json/" then
    .returned { ok := true, json := .returned (some enderecoSe) }
  else .thrown

/-- A network that answers every request with `enderecoSe`. -/
def fetchAlways : Fetch := fun _ =>
  .returned { ok := true, json := .returned (some enderecoSe) }

/-- A network on which `fetch` throws. -/
def fetchDown : Fetch := fun _ => .thrown

/-- A network that answers with a non-success status. -/
def fetchNotFound : Fetch := fun _ => .returned { ok := false, json := .thrown }

/-- A network that answers with the body `{erro: true}`. -/
def fetchErro : Fetch := fun _ =>
  .returned
    { ok := true
      json := .returned (some
        { erro := some true, logradouro := none, bairro := none, localidade := none,
          uf := none, complemento := none }) }

/-- A form with all five address controls, filled in by hand, and the given
postal-code field. -/
def formWith (cep : JSString) : Form :=
  { cep := cep
    logradouro := some (utf16 "Rua A")
    bairro := some (utf16 "Centro")
    cidade := some (utf16 "Santos")
    estado := some (utf16 "RJ")
    complemento := some (utf16 "apto 12") }

/-! ## Basic facts about the mask -/

theorem utf16_hyphen : utf16 "-" = [45] := by decide

theorem utf16_digits : utf16 "0123456789" = [48, 49, 50, 51, 52, 53, 54, 55, 56, 57] := by
  decide

theorem isDigit_iff_mem (c : Nat) : isDigit c = true ↔ c ∈ utf16 "0123456789" := by
  rw [utf16_digits]
  simp only [isDigit, decide_eq_true_eq, List.mem_cons, List.mem_singleton, List.mem_nil_iff,
    or_false]
  omega

theorem orEmpty_some (s : JSString) : orEmpty (some s) = s := by
  cases s <;> simp [orEmpty]

theorem normalizeCEP_some (s : JSString) : normalizeCEP (some s) = (s.filter isDigit).take 8 := by
  simp [normalizeCEP, slice, replaceNonDigits, orEmpty_some]

theorem normalizeCEP_none : normalizeCEP none = [] := by
  simp [normalizeCEP, slice, replaceNonDigits, orEmpty]

theorem normalizeCEP_eq (value : Option JSString) :
    normalizeCEP value = ((orEmpty value).filter isDigit).take 8 := by
  simp [normalizeCEP, slice, replaceNonDigits]

theorem normalizeCEP_length_le (value : Option JSString) : (normalizeCEP value).length ≤ 8 := by
  rw [normalizeCEP_eq, List.length_take]
  exact Nat.min_le_left _ _

theorem normalizeCEP_isDigit (value : Option JSString) :
    ∀ c ∈ normalizeCEP value, isDigit c = true := by
  intro c hc
  rw [normalizeCEP_eq] at hc
  exact (List.mem_filter.mp (List.mem_of_mem_take hc)).2

theorem decide_mem_digits (c : Nat) : decide (c ∈ utf16 "0123456789") = isDigit c := by
  by_cases h : c ∈ utf16 "0123456789"
  · simp [h, (isDigit_iff_mem c).mpr h]
  · have h2 : isDigit c = false := by
      cases hd : isDigit c
      · rfl
      · exact absurd ((isDigit_iff_mem c).mp hd) h
    simp [h, h2]

theorem filter_mem_digits (s : JSString) :
    s.filter (fun c => decide (c ∈ utf16 "0123456789")) = s.filter isDigit :=
  List.filter_congr (fun c _ => decide_mem_digits c)

theorem countP_mem_digits (s : JSString) :
    s.countP (fun c => decide (c ∈ utf16 "0123456789")) = (s.filter isDigit).length := by
  rw [List.countP_eq_length_filter, filter_mem_digits]

theorem specDigitRun_eq (s : JSString) : specDigitRun s = normalizeCEP (some s) := by
  rw [normalizeCEP_some, specDigitRun, filter_mem_digits]

theorem formatCEP_eq (value : Option JSString) :
    formatCEP value =
      if (normalizeCEP value).length ≤ 5 then normalizeCEP value
      else (normalizeCEP value).take 5 ++ [45] ++ (normalizeCEP value).drop 5 := by
  simp [formatCEP, slice, sliceFrom, utf16_hyphen]

/-- Removing the non-digits of a formatted value gives back the digits it was
rendered from. -/
theorem filter_formatCEP (value : Option JSString) :
    (formatCEP value).filter isDigit = normalizeCEP value := by
  have hall := normalizeCEP_isDigit value
  have hself : (normalizeCEP value).filter isDigit = normalizeCEP value :=
    List.filter_eq_self.mpr hall
  rw [formatCEP_eq]
  split
  · exact hself
  · have h45 : isDigit 45 = false := by decide
    rw [List.filter_append, List.filter_append, List.filter_cons_of_neg (by simp [h45]),
      List.filter_nil, List.append_nil, ← List.filter_append, List.take_append_drop]
    exact hself

theorem take_take_append {α : Type} (n : Nat) (a b : List α) :
    (a.take n ++ b).take n = (a ++ b).take n := by
  rw [List.take_append_eq_append_take, List.take_append_eq_append_take, List.take_take,
    Nat.min_self, List.length_take]
  by_cases h : a.length ≤ n
  · rw [Nat.min_eq_right h]
  · have h1 : n ≤ a.length := Nat.le_of_lt (Nat.lt_of_not_le h)
    rw [Nat.min_eq_left h1, Nat.sub_self, Nat.sub_eq_zero_of_le h1]

/-! ## The mask: contract, character set, idempotence, typing -/

/-- C1. With `d` the digits `0`-`9` of `s`, in order, cut after the eighth:
`formatCEP s` is `d` when `d` has at most 5 characters, and otherwise `d` has 6,
7 or 8 characters and `formatCEP s` is the first 5 characters of `d`, a hyphen,
and the remaining 1 to 3 characters of `d`. -/
theorem formatCEP_contract (s : JSString) :
    ((specDigitRun s).length ≤ 5 → formatCEP (some s) = specDigitRun s) ∧
    (5 < (specDigitRun s).length →
      (specDigitRun s).length ≤ 8 ∧
      ((specDigitRun s).take 5).length = 5 ∧
      1 ≤ ((specDigitRun s).drop 5).length ∧ ((specDigitRun s).drop 5).length ≤ 3 ∧
      formatCEP (some s) = (specDigitRun s).take 5 ++ utf16 "-" ++ (specDigitRun s).drop 5) := by
  have hle := normalizeCEP_length_le (some s)
  rw [specDigitRun_eq, formatCEP_eq, utf16_hyphen]
  refine ⟨fun h => by rw [if_pos h], fun h => ?_⟩
  rw [if_neg (Nat.not_le_of_lt h)]
  refine ⟨hle, ?_, ?_, ?_, rfl⟩
  · rw [List.length_take]; omega
  · rw [List.length_drop]; omega
  · rw [List.length_drop]; omega

/-- C1, at `"12a34"` (five or fewer digits) and at `"(01001) 000-9"` (more than
five, cut after the eighth). -/
theorem formatCEP_contract_witness :
    (specDigitRun (utf16 "12a34")).length ≤ 5 ∧
    formatCEP (some (utf16 "12a34")) = utf16 "1234" ∧
    5 < (specDigitRun (utf16 "(01001) 000-9")).length ∧
    formatCEP (some (utf16 "(01001) 000-9")) = utf16 "01001-000" :=
  ⟨by decide,
   ((formatCEP_contract (utf16 "12a34")).1 (by decide)).trans (by decide),
   by decide,
   ((formatCEP_contract (utf16 "(01001) 000-9")).2 (by decide)).2.2.2.2.trans (by decide)⟩

/-- C2. For every input, a string or a missing value, every character of
`formatCEP` is a digit `0`-`9` or a hyphen (code unit 45), there is at most one
hyphen, and there are at most 8 digits. -/
theorem formatCEP_charset (value : Option JSString) :
    (∀ c ∈ formatCEP value, c ∈ utf16 "0123456789" ∨ c = 45) ∧
    (formatCEP value).count 45 ≤ 1 ∧
    (formatCEP value).countP (fun c => decide (c ∈ utf16 "0123456789")) ≤ 8 := by
  have hall := normalizeCEP_isDigit value
  have hle := normalizeCEP_length_le value
  have hcount : (normalizeCEP value).count 45 = 0 := by
    rw [List.count_eq_zero]
    intro h
    exact absurd (hall 45 h) (by decide)
  refine ⟨?_, ?_, ?_⟩
  · intro c hc
    rcases Nat.decEq c 45 with hne | heq
    · left
      have : c ∈ (formatCEP value).filter isDigit := by
        rw [formatCEP_eq] at hc
        rw [filter_formatCEP]
        split at hc
        · exact hc
        · rw [List.append_assoc, List.mem_append, List.mem_append, List.mem_singleton] at hc
          rcases hc with h | h | h
          · exact List.mem_of_mem_take h
          · exact absurd h hne
          · exact List.mem_of_mem_drop h
      exact (isDigit_iff_mem c).mp (List.mem_filter.mp this).2
    · exact Or.inr heq
  · rw [formatCEP_eq]
    split
    · rw [hcount]; exact Nat.zero_le 1
    · have h1 : ((normalizeCEP value).take 5).count 45 = 0 := by
        rw [List.count_eq_zero]
        exact fun h => absurd (hall 45 (List.mem_of_mem_take h)) (by decide)
      have h2 : ((normalizeCEP value).drop 5).count 45 = 0 := by
        rw [List.count_eq_zero]
        exact fun h => absurd (hall 45 (List.mem_of_mem_drop h)) (by decide)
      rw [List.count_append, List.count_append, h1, h2]
      decide
  · rw [countP_mem_digits, filter_formatCEP]
    exact hle

/-- C3. Formatting a formatted value changes nothing. -/
theorem formatCEP_idempotent (value : Option JSString) :
    formatCEP (some (formatCEP value)) = formatCEP value := by
  have hnorm : normalizeCEP (some (formatCEP value)) = normalizeCEP value := by
    rw [normalizeCEP_some, filter_formatCEP]
    exact List.take_of_length_le (normalizeCEP_length_le value)
  rw [formatCEP_eq (some (formatCEP value)), hnorm, ← formatCEP_eq]

theorem normalizeCEP_format_append (s t : JSString) :
    normalizeCEP (some (formatCEP (some s) ++ t)) = normalizeCEP (some (s ++ t)) := by
  rw [normalizeCEP_some, normalizeCEP_some, List.filter_append, List.filter_append,
    filter_formatCEP, normalizeCEP_some, take_take_append]

theorem formatCEP_format_append (s t : JSString) :
    formatCEP (some (formatCEP (some s) ++ t)) = formatCEP (some (s ++ t)) := by
  rw [formatCEP_eq, normalizeCEP_format_append, ← formatCEP_eq]

theorem keystroke_eq (shown : JSString) (c : Nat) :
    keystroke shown c = formatCEP (some (shown ++ [c])) := rfl

theorem foldl_keystroke (keys s : JSString) :
    keys.foldl keystroke (formatCEP (some s)) = formatCEP (some (s ++ keys)) := by
  induction keys generalizing s with
  | nil => simp
  | cons c cs ih =>
    rw [List.foldl_cons, keystroke_eq, formatCEP_format_append, ih]
    simp

theorem typed_eq (keys : JSString) : typed keys = formatCEP (some keys) := by
  have h := foldl_keystroke keys []
  have h0 : formatCEP (some []) = [] := by decide
  rw [h0] at h
  simpa [typed] using h

/-- C9. Formatting the formatted value followed by more text is formatting the
raw text followed by that text; hence after `k` keystrokes at the end of an
empty field the display is `formatCEP` of the first `k` typed characters, and
typing `12345678` shows `1`, `12`, `123`, `1234`, `12345`, `12345-6`,
`12345-67`, `12345-678`. -/
theorem formatCEP_typing :
    (∀ s t : JSString, formatCEP (some (formatCEP (some s) ++ t)) = formatCEP (some (s ++ t))) ∧
    (∀ (keys : JSString) (k : Nat), typed (keys.take k) = formatCEP (some (keys.take k))) ∧
    [1, 2, 3, 4, 5, 6, 7, 8].map (fun k => typed ((utf16 "12345678").take k)) =
      [utf16 "1", utf16 "12", utf16 "123", utf16 "1234", utf16 "12345", utf16 "12345-6",
        utf16 "12345-67", utf16 "12345-678"] :=
  ⟨formatCEP_format_append, fun keys k => typed_eq (keys.take k), by decide⟩

/-! ## The lookup and the `blur` listener -/

theorem orEmpty_eq_getD (v : Option JSString) : orEmpty v = v.getD [] := by
  cases v with
  | none => rfl
  | some s => exact orEmpty_some s

theorem assignIfPresent_eq (input : Option JSString) (v : JSString) :
    assignIfPresent input v = input.map (fun _ => v) := by
  cases input <;> rfl

theorem assignComplemento_eq (input v : Option JSString) :
    assignComplemento input v =
      input.map (fun old => if v.getD [] = [] then old else v.getD []) := by
  cases input with
  | none => rfl
  | some old =>
    cases v with
    | none => simp [assignComplemento, truthyStr]
    | some s => cases s <;> simp [assignComplemento, truthyStr]

theorem normalizeCEP_length (s : JSString) :
    (normalizeCEP (some s)).length = min 8 (s.filter isDigit).length := by
  rw [normalizeCEP_some, List.length_take]

theorem blurHandler_short (fetch : Fetch) (form : Form)
    (h : (normalizeCEP (some form.cep)).length ≠ 8) :
    blurHandler fetch form = ([], .returned form) := by
  simp [blurHandler, h]

theorem blurHandler_requests (fetch : Fetch) (form : Form)
    (h : (normalizeCEP (some form.cep)).length = 8) :
    (blurHandler fetch form).1 = [lookupURL (normalizeCEP (some form.cep))] := by
  simp only [blurHandler, h, ne_eq, not_true_eq_false, if_false, buscarEnderecoPorCEP]
  cases lookupBody fetch (lookupURL (normalizeCEP (some form.cep))) with
  | thrown => rfl
  | returned data => cases data <;> rfl

/-- C4. When the field normalizes to 8 digits and the lookup succeeds with data
(success status, a body, no `erro` marker), the listener finishes with: each of
the street, neighbourhood, city and state controls that exists holding the
response's `logradouro`, `bairro`, `localidade`, `uf`, or the empty string when
that is absent or empty; the complement control holding the response's
`complemento` when that is non-empty and its prior value otherwise. -/
theorem blurHandler_fills_address (fetch : Fetch) (form : Form) (resp : Response)
    (data : Endereco)
    (h8 : (normalizeCEP (some form.cep)).length = 8)
    (hfetch : fetch (lookupURL (normalizeCEP (some form.cep))) = .returned resp)
    (hok : resp.ok = true)
    (hbody : resp.json = .returned (some data))
    (herro : data.erro ≠ some true) :
    (blurHandler fetch form).2 = .returned
      { cep := form.cep
        logradouro := form.logradouro.map (fun _ => data.logradouro.getD [])
        bairro := form.bairro.map (fun _ => data.bairro.getD [])
        cidade := form.cidade.map (fun _ => data.localidade.getD [])
        estado := form.estado.map (fun _ => data.uf.getD [])
        complemento := form.complemento.map (fun old =>
          if data.complemento.getD [] = [] then old else data.complemento.getD []) } := by
  have ht : truthyBool data.erro = false := by
    cases he : data.erro with
    | none => rfl
    | some b =>
      cases b
      · rfl
      · exact absurd he herro
  have hb : lookupBody fetch (lookupURL (normalizeCEP (some form.cep))) =
      .returned (some data) := by
    simp [lookupBody, hfetch, hok, hbody, ht]
  simp only [blurHandler, h8, ne_eq, not_true_eq_false, if_false, buscarEnderecoPorCEP, hb,
    assignIfPresent_eq, assignComplemento_eq, orEmpty_eq_getD]

/-- C4, at the field `01001000` and the response for Praça da Sé: the four
controls are populated and the complement keeps `apto 12`. -/
theorem blurHandler_fills_address_witness :
    (blurHandler fetchSe (formWith (utf16 "01001000"))).2 = .returned
      { cep := utf16 "01001000"
        logradouro := some (utf16 "Praça da Sé")
        bairro := some (utf16 "Sé")
        cidade := some (utf16 "São Paulo")
        estado := some (utf16 "SP")
        complemento := some (utf16 "apto 12") } :=
  (blurHandler_fills_address fetchSe (formWith (utf16 "01001000"))
    { ok := true, json := .returned (some enderecoSe) } enderecoSe
    (by decide) (by decide) rfl rfl (by decide)).trans (by decide)

/-- C5. When the field normalizes to 8 digits and the lookup ends in a transport
exception, a non-success status, or a success whose body carries `erro: true`,
`buscarEnderecoPorCEP` returns `null` without throwing and the listener
finishes with the form, all five address controls included, as it was. -/
theorem lookup_failure_leaves_form (fetch : Fetch) (form : Form)
    (h8 : (normalizeCEP (some form.cep)).length = 8)
    (hfail :
      fetch (lookupURL (normalizeCEP (some form.cep))) = .thrown ∨
      (∃ resp, fetch (lookupURL (normalizeCEP (some form.cep))) = .returned resp ∧
        resp.ok = false) ∨
      (∃ resp data, fetch (lookupURL (normalizeCEP (some form.cep))) = .returned resp ∧
        resp.ok = true ∧ resp.json = .returned (some data) ∧ data.erro = some true)) :
    (buscarEnderecoPorCEP fetch (normalizeCEP (some form.cep))).2 = .returned none ∧
    (blurHandler fetch form).2 = .returned form := by
  have hb : (buscarEnderecoPorCEP fetch (normalizeCEP (some form.cep))).2 = .returned none := by
    rcases hfail with h | ⟨resp, h, hok⟩ | ⟨resp, data, h, hok, hbody, herro⟩
    · simp [buscarEnderecoPorCEP, lookupBody, h]
    · simp [buscarEnderecoPorCEP, lookupBody, h, hok]
    · simp [buscarEnderecoPorCEP, lookupBody, h, hok, hbody, herro, truthyBool]
  refine ⟨hb, ?_⟩
  simp only [blurHandler, h8, ne_eq, not_true_eq_false, if_false]
  revert hb
  generalize buscarEnderecoPorCEP fetch (normalizeCEP (some form.cep)) = r
  rcases r with ⟨reqs, out⟩
  intro hb
  simp only at hb
  subst hb
  rfl

/-- C5, at the field `01001-000` for a network that throws, one that answers
with a non-success status and one that answers `{erro: true}`. -/
theorem lookup_failure_leaves_form_witness :
    (blurHandler fetchDown (formWith (utf16 "01001-000"))).2 =
      .returned (formWith (utf16 "01001-000")) ∧
    (blurHandler fetchNotFound (formWith (utf16 "01001-000"))).2 =
      .returned (formWith (utf16 "01001-000")) ∧
    (buscarEnderecoPorCEP fetchErro (normalizeCEP (some (utf16 "01001-000")))).2 =
      .returned none ∧
    (blurHandler fetchErro (formWith (utf16 "01001-000"))).2 =
      .returned (formWith (utf16 "01001-000")) :=
  ⟨(lookup_failure_leaves_form fetchDown (formWith (utf16 "01001-000")) (by decide)
      (Or.inl rfl)).2,
   (lookup_failure_leaves_form fetchNotFound (formWith (utf16 "01001-000")) (by decide)
      (Or.inr (Or.inl ⟨_, rfl, rfl⟩))).2,
   (lookup_failure_leaves_form fetchErro (formWith (utf16 "01001-000")) (by decide)
      (Or.inr (Or.inr ⟨_, _, rfl, rfl, rfl, rfl⟩))).1,
   (lookup_failure_leaves_form fetchErro (formWith (utf16 "01001-000")) (by decide)
      (Or.inr (Or.inr ⟨_, _, rfl, rfl, rfl, rfl⟩))).2⟩

/-- C6. When the field holds fewer than 8 digit characters the listener requests
nothing and finishes with the form as it was. -/
theorem blurHandler_few_digits (fetch : Fetch) (form : Form)
    (h : form.cep.countP (fun c => decide (c ∈ utf16 "0123456789")) < 8) :
    blurHandler fetch form = ([], .returned form) := by
  apply blurHandler_short
  rw [normalizeCEP_length]
  rw [countP_mem_digits] at h
  omega

/-- C6, at the field `1234`, on a network that would answer any request. -/
theorem blurHandler_few_digits_witness :
    (utf16 "1234").countP (fun c => decide (c ∈ utf16 "0123456789")) < 8 ∧
    blurHandler fetchAlways (formWith (utf16 "1234")) =
      ([], .returned (formWith (utf16 "1234"))) :=
  ⟨by decide, blurHandler_few_digits fetchAlways (formWith (utf16 "1234")) (by decide)⟩

/-- C7 as stated fails at the field `123456789`: its digit-only form has 9
characters, not 8, yet the listener requests the code `12345678` and, on a
network that answers, rewrites the address controls. -/
theorem blurHandler_nine_digits :
    ((utf16 "123456789").filter isDigit).length = 9 ∧
    (blurHandler fetchAlways (formWith (utf16 "123456789"))).1 =
      [utf16 "https://viacep.com.br/ws/12345678/json/"] ∧
    (blurHandler fetchAlways (formWith (utf16 "123456789"))).2 ≠
      .returned (formWith (utf16 "123456789")) := by
  decide

/-- C7, amended. With `d` the field value without its non-digit characters, the
listener issues a lookup request exactly when `d` has at least 8 characters
(when `d` cut after the eighth has exactly 8); when `d` has fewer than 8 the
listener requests nothing and finishes with the form as it was. -/
theorem blurHandler_request_iff (fetch : Fetch) (form : Form) :
    ((blurHandler fetch form).1 ≠ [] ↔ 8 ≤ (form.cep.filter isDigit).length) ∧
    ((blurHandler fetch form).1 ≠ [] ↔ ((form.cep.filter isDigit).take 8).length = 8) ∧
    ((form.cep.filter isDigit).length < 8 → blurHandler fetch form = ([], .returned form)) := by
  have hlen := normalizeCEP_length form.cep
  have hiff : (blurHandler fetch form).1 ≠ [] ↔ 8 ≤ (form.cep.filter isDigit).length := by
    by_cases h8 : (normalizeCEP (some form.cep)).length = 8
    · rw [blurHandler_requests fetch form h8]
      constructor
      · intro _; omega
      · intro _; exact List.cons_ne_nil _ _
    · rw [blurHandler_short fetch form h8]
      constructor
      · intro h; exact absurd rfl h
      · intro h; omega
  refine ⟨hiff, ?_, ?_⟩
  · rw [hiff, List.length_take]; omega
  · intro h
    apply blurHandler_short
    omega

/-- C8. A listener that requests anything requests exactly one URL,
`https://viacep.com.br/ws/` followed by `c` and `/json/`, where `c` has 8
characters, all digits `0`-`9`, and is the first 8 digit characters of the field
value in order. -/
theorem blurHandler_request_url (fetch : Fetch) (form : Form)
    (h : (blurHandler fetch form).1 ≠ []) :
    ∃ c : JSString,
      (blurHandler fetch form).1 =
        [utf16 "https://viacep.com.br/ws/" ++ c ++ utf16 "/json/"] ∧
      c.length = 8 ∧
      (∀ x ∈ c, x ∈ utf16 "0123456789") ∧
      c = (form.cep.filter isDigit).take 8 := by
  by_cases h8 : (normalizeCEP (some form.cep)).length = 8
  · refine ⟨normalizeCEP (some form.cep), blurHandler_requests fetch form h8, h8, ?_,
      normalizeCEP_some form.cep⟩
    intro x hx
    exact (isDigit_iff_mem x).mp (normalizeCEP_isDigit _ x hx)
  · rw [blurHandler_short fetch form h8] at h
    exact absurd rfl h

/-- C8, at the fields `01001000` and `01001-000`: each requests the code
`01001000`. -/
theorem blurHandler_request_url_witness :
    (blurHandler fetchSe (formWith (utf16 "01001000"))).1 =
      [utf16 "https://viacep.com.br/ws/01001000/json/"] ∧
    (blurHandler fetchSe (formWith (utf16 "01001-000"))).1 =
      [utf16 "https://viacep.com.br/ws/01001000/json/"] ∧
    ∃ c : JSString,
      (blurHandler fetchSe (formWith (utf16 "01001-000"))).1 =
        [utf16 "https://viacep.com.br/ws/" ++ c ++ utf16 "/json/"] ∧
      c.length = 8 ∧
      (∀ x ∈ c, x ∈ utf16 "0123456789") ∧
      c = ((formWith (utf16 "01001-000")).cep.filter isDigit).take 8 :=
  ⟨by decide, by decide,
   blurHandler_request_url fetchSe (formWith (utf16 "01001-000")) (by decide)⟩

/-! ## The caret -/

/-- C10 fails on the code. The field shows `12345-6` (the mask of `123456`) with
the caret at offset 0 and the first character is deleted forwards: the listener
sees `prev = "2345-6"` and `start = 0`, within `0 ≤ start ≤ prev.length`,
writes `23456` and calls `setSelectionRange(-1, -1)`. -/
theorem caretPos_negative :
    formatCEP (some (utf16 "123456")) = utf16 "12345-6" ∧
    (utf16 "12345-6").drop 1 = utf16 "2345-6" ∧
    (0 : Int) ≤ 0 ∧ (0 : Int) ≤ ((utf16 "2345-6").length : Int) ∧
    inputHandler true 0 (utf16 "2345-6") =
      { value := utf16 "23456", selection := some (-1) } ∧
    caretPos 0 (formatCEP (some (utf16 "2345-6"))) (utf16 "2345-6") < 0 := by
  decide

/-- The computed caret position never exceeds the length of the formatted value,
and it is not negative as soon as `start` is at least the number of characters
the mask removed. -/
theorem caretPos_bounds (start : Int) (prev : JSString) :
    caretPos start (formatCEP (some prev)) prev ≤ ((formatCEP (some prev)).length : Int) ∧
    (((prev.length : Int) - ((formatCEP (some prev)).length : Int) ≤ start) →
      0 ≤ caretPos start (formatCEP (some prev)) prev) := by
  unfold caretPos
  constructor
  · exact min_le_left _ _
  · intro h
    apply le_min
    · exact Int.ofNat_nonneg _
    · omega

/-- The lookup never throws and always issues exactly one request, whatever the
network does. -/
theorem buscarEnderecoPorCEP_total (fetch : Fetch) (cepDigits : JSString) :
    (buscarEnderecoPorCEP fetch cepDigits).1 = [lookupURL cepDigits] ∧
    ∃ r, (buscarEnderecoPorCEP fetch cepDigits).2 = .returned r := by
  refine ⟨rfl, ?_⟩
  simp only [buscarEnderecoPorCEP]
  cases lookupBody fetch (lookupURL cepDigits) with
  | thrown => exact ⟨none, rfl⟩
  | returned data => exact ⟨data, rfl⟩

/-- A keystroke at the end of the focused field leaves the caret at the end of
the formatted value. -/
theorem inputHandler_caret_at_end (prev : JSString) :
    (inputHandler true (prev.length : Int) prev).selection =
      some ((formatCEP (some prev)).length : Int) := by
  simp only [inputHandler, caretPos, if_true, Option.some.injEq]
  apply min_eq_left
  omega

end Dados
